import Mathlib

/-!
# Laboratory reservation front end: the view controller of `src/App.js`

A shallow embedding of the `App` component's state and handlers.

* The five `useState` cells (`activeTab`, `reservations`, `loading`, `error`,
  `dateRange`) are fields of `World`, together with the content of the
  reservation form (DOM state read through `new FormData(event.target)` and
  cleared by `event.target.reset()`), the `alert` calls made so far, and the
  list of requests that are awaiting a response.
* Every `async` handler is cut at its single `await`: the part before it is a
  function on `World` that appends the suspended call to `pending`; the part
  after it is a `...Resume` function that takes the service's response.
* `new Date(s)` is a platform function whose grammar is implementation defined;
  the handlers take it as the parameter `parse` (`none` is an Invalid Date).
  `Date.prototype.toISOString` and `String.prototype.split` are modelled
  concretely.
* The browser's validation of the reservation form (`required`, `type="email"`,
  the options of the `select`) is `formValid`; `submitForm` is the submission
  as the page makes it, validation first and the handler after it.
-/

namespace App

/-! ## Data model -/

/-- The constant `API_URL` (line 6). -/
def API_URL : String := "http://localhost:8080/api"

/-- A reservation as rendered by the list views (fields read at lines 167-177). -/
structure Reservation where
  id : Nat
  name : String
  studentId : String
  email : String
  laboratory : String
  reservationTime : String
  deriving DecidableEq, Repr

/-- The `dateRange` state cell (lines 13-16). Both fields are strings: the initial
value is a slice of an ISO string and edits store `e.target.value`. -/
structure DateRange where
  startDate : String
  endDate : String
  deriving DecidableEq, Repr

/-- The five named inputs of the reservation form (lines 272-302), as strings. -/
structure FormFields where
  email : String
  name : String
  studentId : String
  laboratory : String
  reservationTime : String
  deriving DecidableEq, Repr

/-- The form after `event.target.reset()`: every input back to its default value. -/
def FormFields.blank : FormFields :=
  { email := "", name := "", studentId := "", laboratory := "", reservationTime := "" }

/-- The object `reservationData` posted at line 84 (built at lines 73-79). -/
structure ReservationData where
  email : String
  name : String
  studentId : String
  laboratory : String
  reservationTime : String
  deriving DecidableEq, Repr

/-- A call suspended at its `await`, with the request it issued. -/
inductive Pending where
  /-- A call of `fetchActiveReservations` awaiting `axios.get(url)` (line 39). -/
  | fetchActive (url : String)
  /-- A call of `fetchPastReservations` awaiting `axios.get(url)` (lines 58-60). -/
  | fetchPast (url : String)
  /-- A call of `handleReservationSubmit` awaiting `axios.post(url, body)` (line 84). -/
  | submit (url : String) (body : ReservationData)
  deriving DecidableEq, Repr

/-- Outcome of an awaited axios call.
`ok data`: the promise resolved, `data` is `response.data` (read by the two list
loaders, ignored by the submit handler).
`err message`: the promise rejected, `message` is the value of
`err.response?.data?.message` (`none` when any link of the chain is missing). -/
inductive Response where
  | ok (data : List Reservation)
  | err (message : Option String)
  deriving DecidableEq, Repr

/-- What an `async` handler can throw before its first `await`. -/
inductive JsError where
  /-- The `RangeError` of `toISOString` called on an Invalid Date. -/
  | rangeError
  deriving DecidableEq, Repr

/-- The component state together with the effects the handlers have on their
surroundings. -/
structure World where
  activeTab : String
  reservations : List Reservation
  loading : Bool
  error : Option String
  dateRange : DateRange
  form : FormFields
  pending : List Pending
  alerts : List String
  deriving DecidableEq, Repr

/-- State of the first render (lines 9-16); `today` is
`new Date().toISOString().split('T')[0]`. -/
def initialWorld (today : String) : World :=
  { activeTab := "current"
    reservations := []
    loading := false
    error := none
    dateRange := { startDate := today, endDate := today }
    form := FormFields.blank
    pending := []
    alerts := [] }

/-! ## JavaScript helpers -/

/-- The operand test of `!s` for a string `s`: only the empty string is falsy. -/
def falsy (s : String) : Bool := s == ""

/-- The expression `m || fallback` where `m` is a string or `undefined`:
`undefined` and the empty string are falsy. -/
def orElse (m : Option String) (fallback : String) : String :=
  match m with
  | none => fallback
  | some s => if falsy s then fallback else s

/-! ## Handlers -/

/-- The function `fetchActiveReservations` up to its `await` (lines 36-39). -/
def fetchActiveReservations (w : World) : World :=
  { w with
    loading := true
    error := none
    pending := w.pending ++ [Pending.fetchActive (API_URL ++ "/reservations/active")] }

/-- The function `fetchActiveReservations` from the `await` on (lines 40-47). -/
def fetchActiveResume (w : World) : Response → World
  | .ok data => { w with reservations := data, loading := false }
  | .err _ =>
    { w with
      error := some "Failed to load reservations. Please try again later."
      loading := false }

/-- The template string of line 59. -/
def pastUrl (r : DateRange) : String :=
  API_URL ++ "/reservations/past?startDate=" ++ r.startDate ++ "&endDate=" ++ r.endDate

/-- The function `fetchPastReservations` up to its `await` (lines 51-60). -/
def fetchPastReservations (w : World) : World :=
  if falsy w.dateRange.startDate || falsy w.dateRange.endDate then
    { w with error := some "Please select both start and end dates" }
  else
    { w with
      loading := true
      error := none
      pending := w.pending ++ [Pending.fetchPast (pastUrl w.dateRange)] }

/-- The function `fetchPastReservations` from the `await` on (lines 61-67). -/
def fetchPastResume (w : World) : Response → World
  | .ok data => { w with reservations := data, loading := false }
  | .err _ =>
    { w with
      error := some "Failed to load past reservations. Please try again later."
      loading := false }

/-! ## The platform's `Date`

A time value is an `Int`, the milliseconds since 1970-01-01T00:00:00Z. -/

/-- Days from 1970-01-01 to the day `d` of month `m` of year `y` in the proleptic
Gregorian calendar (ECMAScript's `MakeDay`, with months counted from 1). -/
def daysFromCivil (y m d : Int) : Int :=
  let y1 := if m ≤ 2 then y - 1 else y
  let era := y1 / 400
  let yoe := y1 - era * 400
  let mp := if m > 2 then m - 3 else m + 9
  let doy := (153 * mp + 2) / 5 + d - 1
  let doe := yoe * 365 + yoe / 4 - yoe / 100 + doy
  era * 146097 + doe - 719468

/-- Year, month (from 1) and day of month of the day number `z` (ECMAScript's
`YearFromTime`, `MonthFromTime`, `DateFromTime`). -/
def civilFromDays (z : Int) : Int × Int × Int :=
  let z1 := z + 719468
  let era := z1 / 146097
  let doe := z1 - era * 146097
  let yoe := (doe - doe / 1460 + doe / 36524 - doe / 146096) / 365
  let doy := doe - (365 * yoe + yoe / 4 - yoe / 100)
  let mp := (5 * doy + 2) / 153
  let d := doy - (153 * mp + 2) / 5 + 1
  let m := if mp < 10 then mp + 3 else mp - 9
  (if m ≤ 2 then yoe + era * 400 + 1 else yoe + era * 400, m, d)

/-- Decimal digits of `n`, zero padded on the left to at least `width`. -/
def pad (width n : Nat) : List Char :=
  let ds := Nat.toDigits 10 n
  List.replicate (width - ds.length) '0' ++ ds

/-- The year part of an ISO string: four digits, or a sign and six digits outside
0..9999. -/
def yearChars (y : Int) : List Char :=
  if 0 ≤ y ∧ y ≤ 9999 then pad 4 y.toNat
  else if y < 0 then '-' :: pad 6 (-y).toNat
  else '+' :: pad 6 y.toNat

/-- The method `Date.prototype.toISOString` on a valid time value: the UTC fields as
`YYYY-MM-DDTHH:mm:ss.sssZ`. -/
def toISOString (t : Int) : String :=
  let (y, m, d) := civilFromDays (t / 86400000)
  let ms := (t % 86400000).toNat
  String.mk (yearChars y ++ '-' :: pad 2 m.toNat ++ '-' :: pad 2 d.toNat
    ++ 'T' :: pad 2 (ms / 3600000) ++ ':' :: pad 2 (ms / 60000 % 60)
    ++ ':' :: pad 2 (ms / 1000 % 60) ++ '.' :: pad 3 (ms % 1000) ++ ['Z'])

/-- The expression `s.split(sep)[0]`: the text before the first `sep`, all of `s`
when it has none. -/
def splitHead (sep : Char) (s : String) : String :=
  String.mk (s.data.takeWhile (fun c => c != sep))

/-- Value of a decimal digit. -/
def digitVal (c : Char) : Option Nat :=
  if c.isDigit then some (c.toNat - 48) else none

/-- A run of decimal digits as a number. -/
def readNat (cs : List Char) : Option Nat :=
  cs.foldlM (fun acc c => (digitVal c).map (fun v => acc * 10 + v)) 0

/-- The time value of `new Date(s)` for the strings this application puts into the
reservation time input: `YYYY-MM-DD HH:mm`, which is not the ISO format and is
read as local time, `tzOffset` being the minutes the local clock is ahead of UTC
(`-240` for UTC-4). Every other string, the empty one included, is an Invalid
Date (`none`) in this model, which is narrower than an engine: engines accept
further shapes and read a year below 100 as a year of the 1900s or 2000s. It is
only ever evaluated on strings of the shape above with the year 2024, on the
empty string and on text without digits, where it agrees with the engines. -/
def dateParse (tzOffset : Int) (s : String) : Option Int :=
  let cs := s.data
  if cs.length = 16 ∧ cs.get? 4 = some '-' ∧ cs.get? 7 = some '-'
      ∧ cs.get? 10 = some ' ' ∧ cs.get? 13 = some ':' then
    match readNat (cs.take 4), readNat ((cs.drop 5).take 2), readNat ((cs.drop 8).take 2),
        readNat ((cs.drop 11).take 2), readNat ((cs.drop 14).take 2) with
    | some y, some m, some d, some h, some mi =>
      if 1 ≤ m ∧ m ≤ 12 ∧ 1 ≤ d ∧ d ≤ 31 ∧ h ≤ 23 ∧ mi ≤ 59 then
        some (daysFromCivil y m d * 86400000 + h * 3600000 + mi * 60000 - tzOffset * 60000)
      else none
    | _, _, _, _, _ => none
  else none

/-- What the time picker configured at lines 19-27 writes into the input for the
date `y`-`m`-`d` at hour `h`: `dateFormat: 'Y-m-d H:00'`, `time_24hr: true`. -/
def pickerOutput (y m d h : Nat) : String :=
  String.mk (pad 4 y ++ '-' :: pad 2 m ++ '-' :: pad 2 d ++ ' ' :: pad 2 h ++ [':', '0', '0'])

/-- The timestamp the claim about the picker expects on the wire for the same
date and hour: `YYYY-MM-DDTHH:00:00`. -/
def canonicalStamp (y m d h : Nat) : String :=
  String.mk (pad 4 y ++ '-' :: pad 2 m ++ '-' :: pad 2 d ++ 'T' :: pad 2 h
    ++ [':', '0', '0', ':', '0', '0'])

/-- The expression of line 78, `new Date(s).toISOString().split('.')[0]`;
`none` when `toISOString` throws a `RangeError` because the date is invalid. -/
def toCanonical (parse : String → Option Int) (s : String) : Option String :=
  (parse s).map (fun t => splitHead '.' (toISOString t))

/-! ## Submission and tab selection -/

/-- The function `handleReservationSubmit` up to its `await` (lines 71-84). Line 78 is
evaluated before the `try` block is entered, so an Invalid Date makes the
`async` function reject with the `RangeError`, no state cell having been
written. -/
def handleReservationSubmit (parse : String → Option Int) (w : World) :
    Except JsError World :=
  match toCanonical parse w.form.reservationTime with
  | none => .error .rangeError
  | some stamp =>
    let reservationData : ReservationData :=
      { email := w.form.email
        name := w.form.name
        studentId := w.form.studentId
        laboratory := w.form.laboratory
        reservationTime := stamp }
    .ok { w with
          loading := true
          error := none
          pending := w.pending ++ [Pending.submit (API_URL ++ "/reservations") reservationData] }

/-- The function `handleReservationSubmit` from the `await` on (lines 85-93). On success
`fetchActiveReservations()` is called without `await`: it runs to its own
`await` and returns, then the alert is shown and the `finally` block runs. -/
def handleReservationSubmitResume (w : World) : Response → World
  | .ok _ =>
    let w1 := { w with form := FormFields.blank }
    let w2 := fetchActiveReservations w1
    let w3 := { w2 with alerts := w2.alerts ++ ["Reservation created successfully!"] }
    { w3 with loading := false }
  | .err message =>
    { w with
      error := some (orElse message "Failed to create reservation. Please try again.")
      loading := false }

/-- The function `handleTabChange` (lines 96-103). -/
def handleTabChange (w : World) (tab : String) : World :=
  let w1 := { w with activeTab := tab }
  if tab = "current" then fetchActiveReservations w1
  else if tab = "past" then fetchPastReservations w1
  else w1

/-- The three tabs the buttons of lines 128-150 select. -/
def tabs : List String := ["current", "past", "new"]

/-! ## The form's own validation

The reservation form (lines 267-314) has no `noValidate`: when the user submits
it the browser first checks every control and dispatches the submit event to
`handleReservationSubmit` only if all of them are valid. The five controls are
`required`; the e-mail input is `type="email"`; the laboratory is a `select`
whose options are the empty placeholder and the four laboratories. -/

/-- The values of the four laboratory options (lines 292-295). -/
def laboratories : List String := ["Lab 1", "Lab 2", "Lab 3", "Lab 4"]

/-- The characters the HTML standard allows in the local part of an e-mail
address besides the dot: letters, digits and the nineteen signs listed here by
code point (exclamation mark, number sign, dollar, percent, ampersand,
apostrophe, asterisk, plus, hyphen, slash, equals, question mark, caret,
underscore, grave accent, the two braces, vertical bar, tilde). -/
def atext (c : Char) : Bool :=
  c.isAlphanum
    || [33, 35, 36, 37, 38, 39, 42, 43, 45, 47, 61, 63, 94, 95, 96, 123, 124, 125, 126].contains
        c.toNat

/-- The dot-separated pieces of a domain. -/
def labels : List Char → List (List Char)
  | [] => [[]]
  | c :: cs =>
    if c = '.' then [] :: labels cs
    else
      match labels cs with
      | [] => [[c]]
      | l :: ls => (c :: l) :: ls

/-- A domain label of the HTML standard: 1 to 63 letters, digits and hyphens,
the first and the last not a hyphen. -/
def labelValid (l : List Char) : Bool :=
  match l.head?, l.getLast? with
  | some first, some last =>
    first.isAlphanum && last.isAlphanum
      && l.all (fun c => c.isAlphanum || c == '-') && decide (l.length ≤ 63)
  | _, _ => false

/-- The check a `type="email"` input applies to a non-empty value (the "valid
e-mail address" of the HTML standard): a non-empty local part of `atext`
characters and dots, one `@`, and a domain of valid labels separated by dots. -/
def emailValid (s : String) : Bool :=
  let localPart := s.data.takeWhile (fun c => c != '@')
  match s.data.dropWhile (fun c => c != '@') with
  | [] => false
  | _ :: domain =>
    !localPart.isEmpty && localPart.all (fun c => atext c || c == '.')
      && (labels domain).all labelValid

/-- Whether every control of the form is valid: the five `required` controls hold
a value, the e-mail is well formed, and the `select` holds one of its four
laboratory options (it can hold nothing else but the empty placeholder). -/
def formValid (f : FormFields) : Bool :=
  !falsy f.email && emailValid f.email && !falsy f.name && !falsy f.studentId
    && laboratories.contains f.laboratory && !falsy f.reservationTime

/-- How a submission of the form ends. -/
inductive SubmitOutcome where
  /-- A control is invalid: the browser reports the validation error at that
  control and does not dispatch the submit event. -/
  | invalid
  /-- The handler ran and threw before its `await`. -/
  | threw (e : JsError)
  /-- The handler ran up to its `await`: the create request is in flight. -/
  | sent (w : World)
  deriving DecidableEq, Repr

/-- The form is submitted (the enabled Submit button of line 305 is clicked, or
Enter is pressed in a field): the controls are validated and, if all are valid,
`handleReservationSubmit` is called. -/
def submitForm (parse : String → Option Int) (w : World) : SubmitOutcome :=
  if formValid w.form then
    match handleReservationSubmit parse w with
    | .ok w1 => .sent w1
    | .error e => .threw e
  else .invalid

/-! ## Executions -/

/-- The code that runs when the response to a suspended call arrives. -/
def Pending.resume : Pending → World → Response → World
  | .fetchActive _ => fetchActiveResume
  | .fetchPast _ => fetchPastResume
  | .submit _ _ => handleReservationSubmitResume

/-- The response `r` to the `i`-th request in flight arrives: the request leaves
`pending` and its call resumes. There is nothing to resume when fewer than `i + 1`
requests are in flight. -/
def deliver (w : World) (i : Nat) (r : Response) : World :=
  match w.pending.get? i with
  | none => w
  | some p => p.resume { w with pending := w.pending.eraseIdx i } r

/-- What can happen to the mounted component. -/
inductive Event where
  /-- A tab button is clicked (lines 130, 138, 146). -/
  | selectTab (tab : String)
  /-- The start date input changes (line 202). -/
  | setStartDate (value : String)
  /-- The end date input changes (line 214). -/
  | setEndDate (value : String)
  /-- The Search button is clicked (line 220). -/
  | search
  /-- The user edits the reservation form. -/
  | fill (form : FormFields)
  /-- A submit event is dispatched to `handleReservationSubmit` (line 267),
  whatever the form holds. -/
  | submit
  /-- The Submit button is clicked (line 305). -/
  | clickSubmit
  /-- The service answers the `i`-th request in flight. -/
  | response (i : Nat) (r : Response)
  deriving DecidableEq, Repr

/-- One event handled to completion (up to the next `await`). A submission that
throws leaves an unhandled rejection and the state as it was.
The events `search` and `submit` are calls of the two handlers as such: the page
makes them only while the button is enabled (`disabled={loading}`, lines 221
and 305) and, for `submit`, only with a form whose controls are valid, so the
executions of `step` include those of the page and more. `clickSubmit` is the
submission as the page makes it. The form content is kept across tab selections,
although the page renders a fresh form when `new` is selected again. -/
def step (parse : String → Option Int) (w : World) : Event → World
  | .selectTab tab => handleTabChange w tab
  | .setStartDate v => { w with dateRange := { w.dateRange with startDate := v } }
  | .setEndDate v => { w with dateRange := { w.dateRange with endDate := v } }
  | .search => fetchPastReservations w
  | .fill form => { w with form := form }
  | .submit =>
    match handleReservationSubmit parse w with
    | .ok w1 => w1
    | .error _ => w
  | .clickSubmit =>
    if w.loading then w
    else
      match submitForm parse w with
      | .sent w1 => w1
      | _ => w
  | .response i r => deliver w i r

/-- The events of a list handled in order. -/
def run (parse : String → Option Int) (w : World) (events : List Event) : World :=
  events.foldl (step parse) w

/-- The component once mounted: the effect of lines 18-33 has called
`fetchActiveReservations` on the state of the first render. -/
def mounted (today : String) : World :=
  fetchActiveReservations (initialWorld today)

/-- Whether a request is in flight. -/
def inFlight (w : World) : Bool := !w.pending.isEmpty

/-! ## Concrete worlds used in the evaluations below -/

/-- A filled reservation form with the given e-mail and time. -/
def sampleForm (email reservationTime : String) : FormFields :=
  { email := email, name := "A B", studentId := "123", laboratory := "Lab 2",
    reservationTime := reservationTime }

/-- A world at rest on the new-reservation tab with the given form content. -/
def formWorld (form : FormFields) : World :=
  { activeTab := "new"
    reservations := []
    loading := false
    error := none
    dateRange := { startDate := "2024-05-01", endDate := "2024-05-01" }
    form := form
    pending := []
    alerts := [] }

/-! ## Executions with one request at a time -/

/-- The event `e` keeps to one request at a time in the world `w` and is not the
success of a create request: a tab selection, a search or a submission is
handled only when no request is in flight. -/
def orderly (w : World) : Event → Bool
  | .selectTab _ => w.pending.isEmpty
  | .search => w.pending.isEmpty
  | .submit => w.pending.isEmpty
  | .clickSubmit => w.pending.isEmpty
  | .response i (.ok _) =>
    match w.pending.get? i with
    | some (.submit _ _) => false
    | _ => true
  | _ => true

/-- Every event of the list is orderly in the world it is handled in. -/
def orderlyRun (parse : String → Option Int) : World → List Event → Bool
  | _, [] => true
  | w, e :: es => orderly w e && orderlyRun parse (step parse w e) es

/-- The state of an orderly execution: `loading` tells whether a request is in
flight, and at most one is. -/
def settled (w : World) : Prop :=
  (w.loading = true ↔ inFlight w = true) ∧ w.pending.length ≤ 1

instance (w : World) : Decidable (settled w) := by
  unfold settled
  infer_instance

/-! ## Facts about lists of requests in flight -/

theorem get?_append_last {α : Type} (l : List α) (a : α) :
    (l ++ [a]).get? l.length = some a := by
  induction l with
  | nil => rfl
  | cons x xs ih => simp [ih]

theorem eraseIdx_append_last {α : Type} (l : List α) (a : α) :
    (l ++ [a]).eraseIdx l.length = l := by
  induction l with
  | nil => rfl
  | cons x xs ih => simp [List.eraseIdx, ih]

theorem append_singleton_ne {α : Type} (l : List α) (a : α) : l ++ [a] ≠ l := by
  intro h
  have := congrArg List.length h
  simp at this

/-- The worlds `formWorld form` are reached from the mounted component: the first
load is answered with an empty list, `new` is selected and the form is filled
in. -/
theorem formWorld_reachable (parse : String → Option Int) (form : FormFields) :
    run parse (mounted "2024-05-01") [.response 0 (.ok []), .selectTab "new", .fill form]
      = formWorld form := by
  rfl

/-! ## Loading the lists -/

/-- C9. A `fetchActiveReservations` whose request is answered with `data` ends in
the world it started from with `reservations` replaced by exactly `data`,
`loading` false and `error` unset; one whose request fails ends with `error`
set to the fixed message and `loading` false, everything else as before. -/
theorem fetchActive_outcome (w : World) (data : List Reservation) (m : Option String) :
    deliver (fetchActiveReservations w) w.pending.length (.ok data)
        = { w with reservations := data, loading := false, error := none }
    ∧ deliver (fetchActiveReservations w) w.pending.length (.err m)
        = { w with
            error := some "Failed to load reservations. Please try again later."
            loading := false } := by
  simp [deliver, fetchActiveReservations, get?_append_last, eraseIdx_append_last,
    Pending.resume, fetchActiveResume]

/-- C2. `fetchPastReservations` rejects the date range exactly when the start or
the end date is empty. When it rejects it only sets `error` to the missing-date
message, so no request is issued; otherwise it issues one request whose URL
carries both dates, whatever their order, with `loading` true and `error`
unset. -/
theorem fetchPast_rejects_iff_date_missing (w : World) :
    ((w.dateRange.startDate = "" ∨ w.dateRange.endDate = "") →
        fetchPastReservations w
          = { w with error := some "Please select both start and end dates" })
    ∧ ((w.dateRange.startDate ≠ "" ∧ w.dateRange.endDate ≠ "") →
        fetchPastReservations w
          = { w with
              loading := true
              error := none
              pending := w.pending ++ [Pending.fetchPast
                ("http://localhost:8080/api" ++ "/reservations/past?startDate="
                  ++ w.dateRange.startDate ++ "&endDate=" ++ w.dateRange.endDate)] })
    ∧ ((fetchPastReservations w).pending = w.pending
          ∧ (fetchPastReservations w).error = some "Please select both start and end dates"
        ↔ (w.dateRange.startDate = "" ∨ w.dateRange.endDate = "")) := by
  by_cases h1 : w.dateRange.startDate = "" <;> by_cases h2 : w.dateRange.endDate = "" <;>
    simp [fetchPastReservations, falsy, h1, h2, pastUrl, API_URL, append_singleton_ne]

/-- C2 at a range whose start date is later than its end date: the request is
issued with both dates. -/
theorem fetchPast_rejects_iff_date_missing_witness :
    fetchPastReservations
        (run (dateParse 0) (mounted "2024-05-01")
          [.response 0 (.ok []), .setStartDate "2024-06-01"])
      = { run (dateParse 0) (mounted "2024-05-01")
            [.response 0 (.ok []), .setStartDate "2024-06-01"] with
          loading := true
          error := none
          pending := [Pending.fetchPast
            "http://localhost:8080/api/reservations/past?startDate=2024-06-01&endDate=2024-05-01"] } :=
  ((fetchPast_rejects_iff_date_missing _).2.1 ⟨by decide, by decide⟩).trans (by decide)

/-! ## Tab selection -/

/-- C10. `handleTabChange` stores the tab it is given. For `current` it then runs
`fetchActiveReservations` once, which issues one request; for `past` it runs
`fetchPastReservations` once, which issues at most one request; for `new` it
does nothing more, so the reservations, the loading flag, the date range and
the requests in flight are as before. -/
theorem handleTabChange_dispatch (w : World) :
    (∀ tab, (handleTabChange w tab).activeTab = tab)
    ∧ handleTabChange w "current" = fetchActiveReservations { w with activeTab := "current" }
    ∧ (handleTabChange w "current").pending
        = w.pending ++ [Pending.fetchActive "http://localhost:8080/api/reservations/active"]
    ∧ handleTabChange w "past" = fetchPastReservations { w with activeTab := "past" }
    ∧ ((handleTabChange w "past").pending = w.pending
        ∨ (handleTabChange w "past").pending
            = w.pending ++ [Pending.fetchPast (pastUrl w.dateRange)])
    ∧ handleTabChange w "new" = { w with activeTab := "new" }
    ∧ (handleTabChange w "new").pending = w.pending
    ∧ (handleTabChange w "new").reservations = w.reservations
    ∧ (handleTabChange w "new").loading = w.loading
    ∧ (handleTabChange w "new").dateRange = w.dateRange := by
  refine ⟨?_, ?_, ?_, ?_, ?_, ?_, ?_, ?_, ?_, ?_⟩
  · intro tab
    unfold handleTabChange
    by_cases h1 : tab = "current"
    · simp [h1, fetchActiveReservations]
    · by_cases h2 : tab = "past"
      · by_cases h3 : (falsy w.dateRange.startDate || falsy w.dateRange.endDate) = true
        · simp [h2, fetchPastReservations, h3]
        · simp [h2, fetchPastReservations, h3]
      · simp [h1, h2]
  · simp [handleTabChange]
  · simp [handleTabChange, fetchActiveReservations, API_URL]
  · simp [handleTabChange]
  · by_cases h3 : (falsy w.dateRange.startDate || falsy w.dateRange.endDate) = true
    · left
      simp [handleTabChange, fetchPastReservations, h3]
    · right
      simp [handleTabChange, fetchPastReservations, h3]
  · simp [handleTabChange]
  · simp [handleTabChange]
  · simp [handleTabChange]
  · simp [handleTabChange]
  · simp [handleTabChange]

/-- C1, amended. Selecting `current`, or `past` with both dates present, leaves
`error` unset once the click has been handled. Selecting `past` with a date
missing leaves `error` set to the missing-date message, whatever it was
before. -/
theorem handleTabChange_error (w : World) (tab : String)
    (h : tab = "current" ∨ tab = "past") :
    (handleTabChange w tab).error
      = if tab = "past" ∧ (w.dateRange.startDate = "" ∨ w.dateRange.endDate = "") then
          some "Please select both start and end dates"
        else none := by
  rcases h with h | h
  · subst h
    simp [handleTabChange, fetchActiveReservations]
  · subst h
    by_cases h1 : w.dateRange.startDate = "" <;> by_cases h2 : w.dateRange.endDate = "" <;>
      simp [handleTabChange, fetchPastReservations, falsy, h1, h2]

/-- C1, amended, at the world after a failed first load when `current` is
selected again: the failure message is gone. -/
theorem handleTabChange_error_witness :
    (run (dateParse 0) (mounted "2024-05-01") [.response 0 (.err none)]).error
        = some "Failed to load reservations. Please try again later."
    ∧ (handleTabChange
          (run (dateParse 0) (mounted "2024-05-01") [.response 0 (.err none)]) "current").error
        = none :=
  ⟨by decide, (handleTabChange_error _ "current" (Or.inl rfl)).trans (by decide)⟩

/-- C1 as stated fails. After a search with the start date emptied the
missing-date message is displayed, and it stays while `new` is open; selecting
`past` (one of the three tabs) then leaves that very message in `error`: the
error is not cleared. -/
theorem handleTabChange_error_counterexample :
    "past" ∈ tabs
    ∧ (run (dateParse 0) (mounted "2024-05-01")
        [.response 0 (.ok []), .selectTab "past", .response 0 (.ok []),
          .setStartDate "", .search, .selectTab "new"]).error
      = some "Please select both start and end dates"
    ∧ (handleTabChange
        (run (dateParse 0) (mounted "2024-05-01")
          [.response 0 (.ok []), .selectTab "past", .response 0 (.ok []),
            .setStartDate "", .search, .selectTab "new"]) "past").error
      = some "Please select both start and end dates"
    ∧ (handleTabChange
        (run (dateParse 0) (mounted "2024-05-01")
          [.response 0 (.ok []), .selectTab "past", .response 0 (.ok []),
            .setStartDate "", .search, .selectTab "new"]) "past").error
      ≠ none := by
  decide

/-- Selecting `new` writes no state cell but `activeTab`: an error displayed
before the click is still displayed after it. -/
theorem handleTabChange_new_keeps_error (w : World) :
    (handleTabChange w "new").error = w.error := by
  simp [handleTabChange]

/-! ## Errors leave the list alone -/

theorem deliver_err_reservations (v : World) (i : Nat) (m : Option String) :
    (deliver v i (.err m)).reservations = v.reservations := by
  unfold deliver
  cases h : v.pending.get? i with
  | none => rfl
  | some p =>
    cases p <;>
      simp [Pending.resume, fetchActiveResume, fetchPastResume, handleReservationSubmitResume]

theorem step_submit_reservations (parse : String → Option Int) (w : World) :
    (step parse w .submit).reservations = w.reservations := by
  simp only [step, handleReservationSubmit]
  cases toCanonical parse w.form.reservationTime <;> rfl

theorem fetchPast_reservations (w : World) :
    (fetchPastReservations w).reservations = w.reservations := by
  unfold fetchPastReservations
  split <;> rfl

/-- C8. An operation that ends in an error leaves `reservations` as it found it:
a failed `fetchActiveReservations`; a `fetchPastReservations` that rejects the
date range or whose request fails; a submission that throws or whose request
fails. More generally no failure response, delivered in any world to any
request in flight, changes `reservations`. -/
theorem errors_keep_reservations (parse : String → Option Int) (w : World)
    (m : Option String) :
    (deliver (fetchActiveReservations w) w.pending.length (.err m)).reservations
        = w.reservations
    ∧ (fetchPastReservations w).reservations = w.reservations
    ∧ (deliver (fetchPastReservations w) w.pending.length (.err m)).reservations
        = w.reservations
    ∧ (step parse w .submit).reservations = w.reservations
    ∧ (deliver (step parse w .submit) w.pending.length (.err m)).reservations
        = w.reservations
    ∧ ∀ (v : World) (i : Nat), (deliver v i (.err m)).reservations = v.reservations := by
  refine ⟨?_, fetchPast_reservations w, ?_, step_submit_reservations parse w, ?_,
    fun v i => deliver_err_reservations v i m⟩
  · rw [deliver_err_reservations]
    rfl
  · rw [deliver_err_reservations, fetchPast_reservations]
  · rw [deliver_err_reservations, step_submit_reservations]

/-! ## Submitting a reservation -/

/-- C4, amended. When the create request awaited at position `i` fails, `error`
becomes the message the rejection carries if that message is a non-empty
string, and the generic fallback when there is no message or the message is
the empty string. In every case the form keeps its content, the failed request
leaves the requests in flight and no request is added, no alert is shown, the
list is untouched and `loading` ends false. -/
theorem create_failure (w : World) (i : Nat) (url : String) (body : ReservationData)
    (m : Option String) (h : w.pending.get? i = some (.submit url body)) :
    (∀ s, m = some s → s ≠ "" → (deliver w i (.err m)).error = some s)
    ∧ (m = none ∨ m = some "" →
        (deliver w i (.err m)).error
          = some "Failed to create reservation. Please try again.")
    ∧ (deliver w i (.err m)).form = w.form
    ∧ (deliver w i (.err m)).pending = w.pending.eraseIdx i
    ∧ (deliver w i (.err m)).alerts = w.alerts
    ∧ (deliver w i (.err m)).reservations = w.reservations
    ∧ (deliver w i (.err m)).loading = false := by
  have hd : deliver w i (.err m)
      = handleReservationSubmitResume { w with pending := w.pending.eraseIdx i } (.err m) := by
    unfold deliver
    rw [h]
    rfl
  rw [hd]
  refine ⟨?_, ?_, rfl, rfl, rfl, rfl, rfl⟩
  · intro s hs hne
    subst hs
    simp [handleReservationSubmitResume, orElse, falsy, hne]
  · rintro (hm | hm) <;> subst hm <;> simp [handleReservationSubmitResume, orElse, falsy]

/-- C4, amended, on the scenario of the specification: the service rejects the
create request with the message "Slot already booked". -/
theorem create_failure_witness :
    (deliver
        (run (dateParse 0) (mounted "2024-05-01")
          [.response 0 (.ok []), .selectTab "new",
            .fill (sampleForm "a@x.com" "2024-05-01 14:00"), .submit])
        0 (.err (some "Slot already booked"))).error = some "Slot already booked"
    ∧ (deliver
        (run (dateParse 0) (mounted "2024-05-01")
          [.response 0 (.ok []), .selectTab "new",
            .fill (sampleForm "a@x.com" "2024-05-01 14:00"), .submit])
        0 (.err (some "Slot already booked"))).form
        = sampleForm "a@x.com" "2024-05-01 14:00" :=
  ⟨(create_failure _ 0 "http://localhost:8080/api/reservations"
      { email := "a@x.com", name := "A B", studentId := "123", laboratory := "Lab 2",
        reservationTime := "2024-05-01T14:00:00" }
      (some "Slot already booked") (by decide)).1 _ rfl (by decide),
    by decide⟩

/-- C4 as stated fails: a rejection whose message is the empty string does not
put that message into `error` but the generic fallback. -/
theorem create_failure_counterexample :
    (run (dateParse 0) (mounted "2024-05-01")
        [.response 0 (.ok []), .selectTab "new",
          .fill (sampleForm "a@x.com" "2024-05-01 14:00"), .submit]).pending
      = [Pending.submit "http://localhost:8080/api/reservations"
          { email := "a@x.com", name := "A B", studentId := "123", laboratory := "Lab 2",
            reservationTime := "2024-05-01T14:00:00" }]
    ∧ (deliver
        (run (dateParse 0) (mounted "2024-05-01")
          [.response 0 (.ok []), .selectTab "new",
            .fill (sampleForm "a@x.com" "2024-05-01 14:00"), .submit])
        0 (.err (some ""))).error
      = some "Failed to create reservation. Please try again."
    ∧ (deliver
        (run (dateParse 0) (mounted "2024-05-01")
          [.response 0 (.ok []), .selectTab "new",
            .fill (sampleForm "a@x.com" "2024-05-01 14:00"), .submit])
        0 (.err (some ""))).error
      ≠ some "" := by
  decide

/-- The handler given a time that parses: the create request is issued with the
fields of the form as they stand and the time normalised. -/
theorem handleReservationSubmit_sends (parse : String → Option Int) (w : World) (t : Int)
    (h : parse w.form.reservationTime = some t) :
    handleReservationSubmit parse w
      = .ok { w with
              loading := true
              error := none
              pending := w.pending ++ [Pending.submit
                "http://localhost:8080/api/reservations"
                { email := w.form.email
                  name := w.form.name
                  studentId := w.form.studentId
                  laboratory := w.form.laboratory
                  reservationTime := splitHead '.' (toISOString t) }] } := by
  simp [handleReservationSubmit, toCanonical, h, API_URL]

theorem formValid_iff (f : FormFields) :
    formValid f = false ↔
      (f.email = "" ∨ f.name = "" ∨ f.studentId = "" ∨ f.laboratory = ""
          ∨ f.reservationTime = "")
        ∨ f.laboratory ∉ ["Lab 1", "Lab 2", "Lab 3", "Lab 4"]
        ∨ emailValid f.email = false := by
  constructor
  · intro h
    by_contra hc
    simp only [not_or] at hc
    obtain ⟨⟨h1, h2, h3, _, h5⟩, h6, h7⟩ := hc
    have : formValid f = true := by
      simp only [not_not] at h6
      simp [formValid, falsy, laboratories, h1, h2, h3, h5, h7]
      simpa using h6
    rw [this] at h
    cases h
  · rintro ((h | h | h | h | h) | h | h)
    · simp [formValid, falsy, h]
    · simp [formValid, falsy, h]
    · simp [formValid, falsy, h]
    · simp [formValid, falsy, laboratories, h]
    · simp [formValid, falsy, h]
    · have hm : f.laboratory ∉ laboratories := h
      simp [formValid, hm]
    · simp [formValid, h]

/-- C3, amended. A submission of the form is rejected with a validation error if
and only if at least one of the five fields is empty, or the laboratory is not
one of the four, or the e-mail is not a well-formed address. The rejection is
made by the form's own validation before `handleReservationSubmit` is called:
no create request is issued and the world, `error` included, is left as it was.
A form that is not rejected and whose time parses is posted with `email`, `name`,
`studentId` and `laboratory` as submitted and the time normalised. -/
theorem submitForm_rejects_iff (parse : String → Option Int) (w : World) :
    (submitForm parse w = .invalid ↔
        (w.form.email = "" ∨ w.form.name = "" ∨ w.form.studentId = ""
            ∨ w.form.laboratory = "" ∨ w.form.reservationTime = "")
          ∨ w.form.laboratory ∉ ["Lab 1", "Lab 2", "Lab 3", "Lab 4"]
          ∨ emailValid w.form.email = false)
    ∧ (submitForm parse w = .invalid → step parse w .clickSubmit = w)
    ∧ ∀ t, submitForm parse w ≠ .invalid → parse w.form.reservationTime = some t →
        submitForm parse w
          = .sent { w with
                    loading := true
                    error := none
                    pending := w.pending ++ [Pending.submit
                      "http://localhost:8080/api/reservations"
                      { email := w.form.email
                        name := w.form.name
                        studentId := w.form.studentId
                        laboratory := w.form.laboratory
                        reservationTime := splitHead '.' (toISOString t) }] } := by
  have key : submitForm parse w = .invalid ↔ formValid w.form = false := by
    unfold submitForm
    cases hv : formValid w.form with
    | false => simp
    | true =>
      simp only [if_true]
      cases handleReservationSubmit parse w <;> simp
  refine ⟨key.trans (formValid_iff w.form), ?_, ?_⟩
  · intro h
    simp only [step, h]
    split <;> rfl
  · intro t hne ht
    have hv : formValid w.form = true := by
      cases hv : formValid w.form with
      | true => rfl
      | false => exact absurd (key.2 hv) hne
    simp only [submitForm, hv, if_true, handleReservationSubmit_sends parse w t ht]

/-- C3, amended, on the draft of the specification's scenario: every control is
valid and the time parses, so the draft is posted. -/
theorem submitForm_rejects_iff_witness :
    submitForm (dateParse 0) (formWorld (sampleForm "a@x.com" "2024-05-01 14:00"))
      = .sent { formWorld (sampleForm "a@x.com" "2024-05-01 14:00") with
                loading := true
                error := none
                pending := [Pending.submit "http://localhost:8080/api/reservations"
                  { email := "a@x.com", name := "A B", studentId := "123",
                    laboratory := "Lab 2", reservationTime := "2024-05-01T14:00:00" }] } :=
  ((submitForm_rejects_iff (dateParse 0) _).2.2 1714572000000 (by decide) (by decide)).trans
    (by decide)

/-- C3 as stated fails: with the e-mail "abc" none of the five fields is empty and
the laboratory is one of the four, yet the submission is rejected with a
validation error (the input is `type="email"`) and no create request is
issued. -/
theorem submitForm_rejects_iff_counterexample :
    (sampleForm "abc" "2024-05-01 14:00").email ≠ ""
    ∧ (sampleForm "abc" "2024-05-01 14:00").name ≠ ""
    ∧ (sampleForm "abc" "2024-05-01 14:00").studentId ≠ ""
    ∧ (sampleForm "abc" "2024-05-01 14:00").laboratory ≠ ""
    ∧ (sampleForm "abc" "2024-05-01 14:00").reservationTime ≠ ""
    ∧ (sampleForm "abc" "2024-05-01 14:00").laboratory ∈ ["Lab 1", "Lab 2", "Lab 3", "Lab 4"]
    ∧ submitForm (dateParse 0) (formWorld (sampleForm "abc" "2024-05-01 14:00")) = .invalid
    ∧ step (dateParse 0) (formWorld (sampleForm "abc" "2024-05-01 14:00")) .clickSubmit
        = formWorld (sampleForm "abc" "2024-05-01 14:00") := by
  decide

/-- A reservation time that does not parse makes the handler throw before it has
written any state cell or issued a request. -/
theorem submit_throws_of_invalid_time (parse : String → Option Int) (w : World)
    (h : parse w.form.reservationTime = none) :
    handleReservationSubmit parse w = .error .rangeError ∧ step parse w .submit = w := by
  simp [step, handleReservationSubmit, toCanonical, h]

/-- C6 on the code. With the reservation time "abc", and likewise with the empty
string, the handler ends in a `RangeError` that nothing catches: the world after
the submission is the world before it, so `error` is still unset and nothing is
displayed. -/
theorem submit_invalid_time_escapes :
    handleReservationSubmit (dateParse 0) (formWorld (sampleForm "a@x.com" "abc"))
        = .error .rangeError
    ∧ (step (dateParse 0) (formWorld (sampleForm "a@x.com" "abc")) .submit).error = none
    ∧ (step (dateParse 0) (formWorld (sampleForm "a@x.com" "abc")) .submit).pending = []
    ∧ handleReservationSubmit (dateParse 0) (formWorld (sampleForm "a@x.com" ""))
        = .error .rangeError
    ∧ (step (dateParse 0) (formWorld (sampleForm "a@x.com" "")) .submit).error = none :=
  ⟨rfl, by decide, by decide, rfl, by decide⟩

/-- C7 on the code. Where the local clock is four hours behind UTC, the picker's
string for 2024-05-01 at 14:00 is normalised to 18:00 of that day, and its string
for 22:00 to 02:00 of the next day; for none of the hours from 8 to 22 of that
day is the result the timestamp of the date and hour that were picked. Where the
local clock is UTC it is, for each of them. -/
theorem toCanonical_shifts_by_offset :
    pickerOutput 2024 5 1 14 = "2024-05-01 14:00"
    ∧ canonicalStamp 2024 5 1 14 = "2024-05-01T14:00:00"
    ∧ toCanonical (dateParse (-240)) (pickerOutput 2024 5 1 14) = some "2024-05-01T18:00:00"
    ∧ toCanonical (dateParse (-240)) (pickerOutput 2024 5 1 22) = some "2024-05-02T02:00:00"
    ∧ (∀ h ∈ List.range 15,
        toCanonical (dateParse (-240)) (pickerOutput 2024 5 1 (h + 8))
          ≠ some (canonicalStamp 2024 5 1 (h + 8)))
    ∧ (∀ h ∈ List.range 15,
        toCanonical (dateParse 0) (pickerOutput 2024 5 1 (h + 8))
          = some (canonicalStamp 2024 5 1 (h + 8))) := by
  decide

/-! ## The loading flag and the requests in flight -/

theorem inFlight_append (w : World) (l : List Pending) (a : Pending)
    (h : w.pending = l ++ [a]) : inFlight w = true := by
  cases l <;> simp [inFlight, h]

theorem fetchPast_loading_inFlight (w : World)
    (h : w.loading = true → inFlight w = true) :
    (fetchPastReservations w).loading = true → inFlight (fetchPastReservations w) = true := by
  unfold fetchPastReservations
  split
  · exact h
  · intro _
    exact inFlight_append _ w.pending _ rfl

theorem deliver_loading (w : World) (i : Nat) (r : Response) (p : Pending)
    (h : w.pending.get? i = some p) : (deliver w i r).loading = false := by
  unfold deliver
  rw [h]
  cases p <;> cases r <;> rfl

/-- A click on Submit changes nothing or does what the handler does. -/
theorem step_clickSubmit_cases (parse : String → Option Int) (w : World) :
    step parse w .clickSubmit = w ∨ step parse w .clickSubmit = step parse w .submit := by
  simp only [step, submitForm]
  by_cases hl : w.loading = true
  · left
    simp [hl]
  · by_cases hv : formValid w.form = true
    · right
      simp only [hl, hv, if_true]
      cases handleReservationSubmit parse w <;> rfl
    · left
      simp [hl, hv]

theorem submit_loading_inFlight (parse : String → Option Int) (w : World)
    (h : w.loading = true → inFlight w = true) :
    (step parse w .submit).loading = true → inFlight (step parse w .submit) = true := by
  simp only [step, handleReservationSubmit]
  cases toCanonical parse w.form.reservationTime with
  | none => exact h
  | some stamp =>
    intro _
    exact inFlight_append _ w.pending _ rfl

/-- Whatever the event, a world in which `loading` implies a request in flight is
followed by such a world. -/
theorem step_loading_inFlight (parse : String → Option Int) (w : World) (e : Event)
    (h : w.loading = true → inFlight w = true) :
    (step parse w e).loading = true → inFlight (step parse w e) = true := by
  cases e with
  | selectTab tab =>
    simp only [step, handleTabChange]
    split
    · intro _
      exact inFlight_append _ w.pending _ rfl
    · split
      · exact fetchPast_loading_inFlight _ h
      · exact h
  | setStartDate v => exact h
  | setEndDate v => exact h
  | search => exact fetchPast_loading_inFlight w h
  | fill form => exact h
  | submit => exact submit_loading_inFlight parse w h
  | clickSubmit =>
    rcases step_clickSubmit_cases parse w with hc | hc
    · rw [hc]
      exact h
    · rw [hc]
      exact submit_loading_inFlight parse w h
  | response i r =>
    simp only [step]
    cases hp : w.pending.get? i with
    | none =>
      have : deliver w i r = w := by
        unfold deliver
        rw [hp]
      rw [this]
      exact h
    | some p =>
      intro hl
      rw [deliver_loading w i r p hp] at hl
      cases hl

theorem settled_of_idle_append (w v : World) (a : Pending) (hw : w.pending.isEmpty = true)
    (hl : v.loading = true) (hp : v.pending = w.pending ++ [a]) : settled v := by
  have hnil : w.pending = [] := by simpa using hw
  constructor
  · simp [hl, inFlight, hp]
  · simp [hp, hnil]

theorem fetchPast_settled (w : World) (hs : settled w) (hw : w.pending.isEmpty = true) :
    settled (fetchPastReservations w) := by
  unfold fetchPastReservations
  split
  · exact hs
  · exact settled_of_idle_append w _ _ hw rfl rfl

theorem submit_settled (parse : String → Option Int) (w : World)
    (ho : w.pending.isEmpty = true) (hs : settled w) : settled (step parse w .submit) := by
  simp only [step, handleReservationSubmit]
  cases toCanonical parse w.form.reservationTime with
  | none => exact hs
  | some stamp => exact settled_of_idle_append w _ _ ho rfl rfl

theorem step_settled (parse : String → Option Int) (w : World) (e : Event)
    (ho : orderly w e = true) (hs : settled w) : settled (step parse w e) := by
  cases e with
  | selectTab tab =>
    simp only [orderly] at ho
    simp only [step, handleTabChange]
    split
    · exact settled_of_idle_append w _ _ ho rfl rfl
    · split
      · exact fetchPast_settled _ hs ho
      · exact hs
  | setStartDate v => exact hs
  | setEndDate v => exact hs
  | search => exact fetchPast_settled w hs ho
  | fill form => exact hs
  | submit => exact submit_settled parse w ho hs
  | clickSubmit =>
    rcases step_clickSubmit_cases parse w with hc | hc
    · rw [hc]
      exact hs
    · rw [hc]
      exact submit_settled parse w ho hs
  | response i r =>
    simp only [step]
    cases hp : w.pending.get? i with
    | none =>
      have : deliver w i r = w := by
        unfold deliver
        rw [hp]
      rw [this]
      exact hs
    | some p =>
      have hone : w.pending = [p] ∧ i = 0 := by
        have hlen := hs.2
        cases hw : w.pending with
        | nil => simp [hw] at hp
        | cons a l =>
          cases l with
          | cons b l2 => simp [hw] at hlen
          | nil =>
            cases i with
            | zero =>
              rw [hw] at hp
              simp at hp
              simp [hp]
            | succ j => simp [hw] at hp
      obtain ⟨hw, hi⟩ := hone
      subst hi
      unfold deliver
      rw [hp]
      cases p with
      | fetchActive url =>
        cases r <;> simp [Pending.resume, fetchActiveResume, settled, inFlight, hw]
      | fetchPast url =>
        cases r <;> simp [Pending.resume, fetchPastResume, settled, inFlight, hw]
      | submit url body =>
        cases r with
        | err m => simp [Pending.resume, handleReservationSubmitResume, settled, inFlight, hw]
        | ok data =>
          simp only [orderly] at ho
          rw [hp] at ho
          cases ho

theorem run_loading_inFlight (parse : String → Option Int) (events : List Event) :
    ∀ w : World, (w.loading = true → inFlight w = true) →
      (run parse w events).loading = true → inFlight (run parse w events) = true := by
  induction events with
  | nil => intro w h; exact h
  | cons e es ih =>
    intro w h
    exact ih (step parse w e) (step_loading_inFlight parse w e h)

theorem run_settled (parse : String → Option Int) (events : List Event) :
    ∀ w : World, orderlyRun parse w events = true → settled w →
      settled (run parse w events) := by
  induction events with
  | nil => intro w _ hs; exact hs
  | cons e es ih =>
    intro w ho hs
    simp only [orderlyRun, Bool.and_eq_true] at ho
    exact ih (step parse w e) ho.2 (step_settled parse w e ho.1 hs)

theorem mounted_settled (today : String) : settled (mounted today) := by
  simp [settled, mounted, fetchActiveReservations, initialWorld, inFlight]

/-- C5, amended. At every point of every execution of the mounted component,
`loading` true implies that a request is in flight. In the executions in which
tab selections, searches and submissions are handled only while no request is
in flight, and up to the first create request that succeeds, `loading` is true
exactly while a request is in flight. -/
theorem loading_tracks_requests (parse : String → Option Int) (today : String)
    (events : List Event) :
    ((run parse (mounted today) events).loading = true →
        inFlight (run parse (mounted today) events) = true)
    ∧ (orderlyRun parse (mounted today) events = true →
        ((run parse (mounted today) events).loading = true ↔
          inFlight (run parse (mounted today) events) = true)) := by
  refine ⟨run_loading_inFlight parse events _ ?_, fun ho => ?_⟩
  · intro _
    exact inFlight_append _ [] _ rfl
  · exact (run_settled parse events _ ho (mounted_settled today)).1

/-- C5, amended, on an orderly execution that ends with a create request in
flight: the first load is answered, `past` is selected and its load fails, `new`
is selected, the form is filled in and submitted. -/
theorem loading_tracks_requests_witness :
    orderlyRun (dateParse 0) (mounted "2024-05-01")
        [.response 0 (.ok []), .selectTab "past", .response 0 (.err none),
          .selectTab "new", .fill (sampleForm "a@x.com" "2024-05-01 14:00"), .submit] = true
    ∧ inFlight (run (dateParse 0) (mounted "2024-05-01")
        [.response 0 (.ok []), .selectTab "past", .response 0 (.err none),
          .selectTab "new", .fill (sampleForm "a@x.com" "2024-05-01 14:00"), .submit]) = true
    ∧ (run (dateParse 0) (mounted "2024-05-01")
        [.response 0 (.ok []), .selectTab "past", .response 0 (.err none),
          .selectTab "new", .fill (sampleForm "a@x.com" "2024-05-01 14:00"), .submit]).loading
        = true :=
  ⟨by decide, by decide,
    ((loading_tracks_requests (dateParse 0) "2024-05-01" _).2 (by decide)).2 (by decide)⟩

/-- C5 as stated fails: when `current` is selected while the first load is still
in flight, two requests are in flight; the answer to the first one sets `loading`
to false although the second one has not been answered. -/
theorem loading_tracks_requests_counterexample :
    (run (dateParse 0) (mounted "2024-05-01")
        [.selectTab "current", .response 0 (.ok [])]).pending
      = [Pending.fetchActive "http://localhost:8080/api/reservations/active"]
    ∧ inFlight (run (dateParse 0) (mounted "2024-05-01")
        [.selectTab "current", .response 0 (.ok [])]) = true
    ∧ (run (dateParse 0) (mounted "2024-05-01")
        [.selectTab "current", .response 0 (.ok [])]).loading = false := by
  decide

/-- A create request that succeeds starts the refresh of the active list and
then runs the `finally` block: the refresh request is in flight, `loading` is
false, the form is blank and the alert has been shown. -/
theorem create_success_outcome (w : World) (i : Nat) (url : String)
    (body : ReservationData) (data : List Reservation)
    (h : w.pending.get? i = some (.submit url body)) :
    deliver w i (.ok data)
      = { w with
          form := FormFields.blank
          error := none
          loading := false
          pending := w.pending.eraseIdx i
            ++ [Pending.fetchActive "http://localhost:8080/api/reservations/active"]
          alerts := w.alerts ++ ["Reservation created successfully!"] } := by
  unfold deliver
  rw [h]
  simp [Pending.resume, handleReservationSubmitResume, fetchActiveReservations, API_URL]

end App
